import Mathlib

/-!
Shallow embedding of the viewport drawing subsystem of CAD_Sketcher
(src/viewport_drawing/drawing.py, src/viewport_drawing/geo.py,
src/viewport_drawing/debug_operators.py, together with the semantics of the
bmesh operators the code invokes).

Python floats are modelled as rationals, since every claim under scrutiny is
about exact arithmetic identities (halving and a max clamp) that are exact in
binary floating point for the ranges involved.  Mutation of the dataclass
DrawnMesh is modelled by explicit state passing; the functools cached_property
storage is modelled as an Option-valued field per cached attribute, where none
means the attribute is absent from the instance dictionary and some v means it
is memoized with value v.  GPU shader objects and RGBA colors are not modelled;
a draw batch is modelled by the point and index data handed to
batch_for_shader.
-/

/-- A 3D position, modelling mathutils.Vector of length 3. -/
structure Vec3 where
  x : ℚ
  y : ℚ
  z : ℚ
deriving DecidableEq

/-- A bmesh face as the drawing code observes it: the ordered list of vertex
indices of its loop, and the value of the face_map integer custom-data layer
(the workplane group tag). -/
structure BMFace where
  verts : List Nat
  fmap : Int
deriving DecidableEq

/-- A bmesh as the drawing code observes it: vertex positions indexed by
position in the list, and faces. -/
structure BMesh where
  verts : List Vec3
  faces : List BMFace
deriving DecidableEq

/-- Fan decomposition of one face loop, modelling the effect of
bmesh.ops.triangulate on a single face: the face v0 v1 ... v(n-1) becomes the
triangles v0 vi v(i+1); the face_map layer value is inherited by every
triangle.  This models the external bmesh operator, which the spec describes
as a deterministic fan/ear-clip rule with ties broken by vertex order. -/
def fan_tris (v0 : Nat) (fm : Int) : List Nat → List BMFace
  | v1 :: v2 :: rest => ⟨[v0, v1, v2], fm⟩ :: fan_tris v0 fm (v2 :: rest)
  | _ => []

/-- Triangulation of one face (model of bmesh.ops.triangulate per face). -/
def triangulate_face (f : BMFace) : List BMFace :=
  match f.verts with
  | v0 :: rest => fan_tris v0 f.fmap rest
  | [] => []

/-- Model of bmesh.ops.triangulate(self.bm, faces=self.bm.faces): every face
is replaced by its fan triangles; vertices are unchanged. -/
def triangulate (bm : BMesh) : BMesh :=
  { bm with faces := bm.faces.flatMap triangulate_face }

/-- Model of the double-sided step of DrawnMesh.post init:
bmesh.ops.duplicate of all vertices and faces (copies are appended, vertex
indices of copied faces are shifted by the vertex count, custom-data layers
such as face_map are copied unchanged) followed by bmesh.ops.reverse_faces on
the duplicated faces (loop order reversed, layers untouched). -/
def duplicate_and_reverse (bm : BMesh) : BMesh :=
  let n := bm.verts.length
  { verts := bm.verts ++ bm.verts
    faces := bm.faces ++
      bm.faces.map (fun f => ⟨(f.verts.map (fun i => i + n)).reverse, f.fmap⟩) }

/-- DrawnMesh.__post_init__ (src/viewport_drawing/drawing.py lines 71 to 79):
triangulate the owned bmesh, then, when double sided, duplicate all geometry
and reverse the winding of the duplicated faces.  The ensure_lookup_table
calls only refresh index accessors and have no observable effect here. -/
def post_init (bm : BMesh) (double_sided : Bool) : BMesh :=
  let t := triangulate bm
  if double_sided then duplicate_and_reverse t else t

/-- points_and_faces (src/viewport_drawing/geo.py lines 27 to 43) with no face
filter: all vertex coordinates, and per face the list of its vertex indices
(face_vert_indices). -/
def points_and_faces (bm : BMesh) : List Vec3 × List (List Nat) :=
  (bm.verts, bm.faces.map BMFace.verts)

/-- face_map_lookup (src/viewport_drawing/geo.py lines 50 to 53): the face_map
layer value of the face at the given index.  The Python version raises
IndexError on an out-of-range index; that partiality is modelled by Option. -/
def face_map_lookup (bm : BMesh) (face_id : Nat) : Option Int :=
  (bm.faces.get? face_id).map BMFace.fmap

/-- A Python generator object as returned by faces_by_map_id: it owns the
not-yet-yielded suffix of its iteration.  A generator yields each element once;
after a full traversal the remaining list is empty and every further traversal
yields nothing. -/
structure FaceGen where
  remaining : List BMFace
deriving DecidableEq

/-- Fully traverse a generator (as list(...) or a for loop does): returns
everything it still yields, and the exhausted generator object. -/
def FaceGen.iterate (g : FaceGen) : List BMFace × FaceGen :=
  (g.remaining, ⟨[]⟩)

/-- faces_by_map_id (src/viewport_drawing/geo.py lines 56 to 61): calling the
generator function creates a fresh generator that will yield exactly the faces
whose face_map layer value equals the argument, in face order. -/
def faces_by_map_id (bm : BMesh) (face_map_id : Int) : FaceGen :=
  ⟨bm.faces.filter (fun f => f.fmap == face_map_id)⟩

/-- The list of faces a single full traversal of faces_by_map_id yields. -/
def faces_by_map_id_list (bm : BMesh) (face_map_id : Int) : List BMFace :=
  (faces_by_map_id bm face_map_id).iterate.1

/-- The group ids actually carried by some face of the mesh, each once. -/
def known_face_map_ids (bm : BMesh) : List Int :=
  (bm.faces.map BMFace.fmap).dedup

/-- RaycastResult (src/viewport_drawing/drawing.py lines 32 to 42): the tuple
returned by BVHTree.ray_cast.  On a miss all four components are None. -/
structure RaycastResult where
  location : Option Vec3
  normal : Option Vec3
  index : Option Nat
  distance : Option ℚ
deriving DecidableEq

/-- RaycastResult.failed: the raycast missed exactly when location is None. -/
def RaycastResult.failed (r : RaycastResult) : Bool :=
  r.location.isNone

/-- MouseHoverResult (src/viewport_drawing/drawing.py lines 45 to 57); every
field defaults to None. -/
structure MouseHoverResult where
  face_id : Option Nat
  face_map : Option Int
  vert_id : Option Nat
  edge_id : Option Nat
deriving DecidableEq

/-- MouseHoverResult.failed: true exactly when all four result fields are
None (the all(...) over the field tuple). -/
def MouseHoverResult.failed (r : MouseHoverResult) : Bool :=
  r.face_id.isNone && r.face_map.isNone && r.vert_id.isNone && r.edge_id.isNone

/-- A BVHTree as built by BVHTree.FromBMesh: for the purposes of the claims it
is determined by the mesh snapshot it was built from, which is what its
ray_cast queries consult. -/
structure BVH where
  source : BMesh
deriving DecidableEq

/-- A GPU draw batch as built by batch_for_shader: the position data and the
triangle index data it was given. -/
structure Batch where
  pos : List Vec3
  indices : List (List Nat)
deriving DecidableEq

/-- The mutable state of a DrawnMesh instance (src/viewport_drawing/drawing.py
lines 60 to 190).  The three cached_property slots that _clear_cache touches
are modelled explicitly: none models the attribute being absent from the
instance dictionary, some v models a memoized value.  The two color tuples and
the cached shader object never influence any claim and are not modelled. -/
structure DrawnMesh where
  bm : BMesh
  double_sided : Bool
  scaler : ℚ
  view_distance : ℚ
  cached_xformed_bm : Option BMesh
  cached_bvh : Option BVH
  cached_passive_batch : Option Batch
deriving DecidableEq

/-- Dataclass construction of DrawnMesh followed by __post_init__: the owned
bmesh is triangulated (and duplicated when double sided) in place; scaler
defaults to 1.0 and view_distance to 0; no cached_property is populated yet. -/
def DrawnMesh.init (bm : BMesh) (double_sided : Bool) : DrawnMesh :=
  { bm := post_init bm double_sided
    double_sided := double_sided
    scaler := 1
    view_distance := 0
    cached_xformed_bm := none
    cached_bvh := none
    cached_passive_batch := none }

/-- The value computed by the _xformed_bm cached property body
(src/viewport_drawing/drawing.py lines 81 to 88): a copy of the owned bmesh
with every vertex scaled by the uniform vector Vector.Fill(3, scaler / 2). -/
def xformed_bm_value (bm : BMesh) (scaler : ℚ) : BMesh :=
  { bm with
    verts := bm.verts.map
      (fun v => ⟨v.x * (scaler / 2), v.y * (scaler / 2), v.z * (scaler / 2)⟩) }

/-- Access of the cached property _xformed_bm: return the memoized copy, or
compute it from the current scaler and memoize it. -/
def DrawnMesh.get_xformed_bm (s : DrawnMesh) : BMesh × DrawnMesh :=
  match s.cached_xformed_bm with
  | some m => (m, s)
  | none =>
    let m := xformed_bm_value s.bm s.scaler
    (m, { s with cached_xformed_bm := some m })

/-- Access of the cached property _bvh (src/viewport_drawing/drawing.py lines
90 to 92): BVHTree.FromBMesh of the transformed mesh, memoized. -/
def DrawnMesh.get_bvh (s : DrawnMesh) : BVH × DrawnMesh :=
  match s.cached_bvh with
  | some b => (b, s)
  | none =>
    let p := DrawnMesh.get_xformed_bm s
    let b := BVH.mk p.1
    (b, { p.2 with cached_bvh := some b })

/-- Access of the cached property _passive_batch (src/viewport_drawing/
drawing.py lines 171 to 176): batch_for_shader over points_and_faces of the
transformed mesh, memoized. -/
def DrawnMesh.get_passive_batch (s : DrawnMesh) : Batch × DrawnMesh :=
  match s.cached_passive_batch with
  | some b => (b, s)
  | none =>
    let p := DrawnMesh.get_xformed_bm s
    let pf := points_and_faces p.1
    let b := Batch.mk pf.1 pf.2
    (b, { p.2 with cached_passive_batch := some b })

/-- DrawnMesh._clear_cache (src/viewport_drawing/drawing.py lines 133 to 140).
The body is one try block: first self._xformed_bm.free() and del
self._xformed_bm run (the attribute access recomputes the property if it is
absent, so this pair never raises and always leaves the slot empty); then del
self._passive_batch raises AttributeError when that slot is empty, and the
except clause swallows the error, skipping del self._bvh; otherwise both
remaining slots are emptied (del self._bvh may itself raise, but only when the
slot is already empty). -/
def DrawnMesh.clear_cache (s : DrawnMesh) : DrawnMesh :=
  let s1 := { s with cached_xformed_bm := none }
  match s1.cached_passive_batch with
  | none => s1
  | some _ => { s1 with cached_passive_batch := none, cached_bvh := none }

/-- The scaler value assigned by DrawnMesh.draw on a view distance change
(src/viewport_drawing/drawing.py lines 148 to 150): self.scaler =
self.view_distance / 2 followed by self.scaler = max(3, self.scaler). -/
def update_scaler (view_distance : ℚ) : ℚ :=
  max 3 (view_distance / 2)

/-- The state effect of DrawnMesh.draw (src/viewport_drawing/drawing.py lines
142 to 164) for one frame, given the view distance the context reports: when
it differs from the stored one, store it, run _clear_cache and recompute the
scaler; then the unconditional base drawing accesses _passive_batch, which
materializes the transformed mesh and the base batch.  The highlight pass
builds a throwaway batch via _active_batch and caches nothing, so it has no
further state effect. -/
def DrawnMesh.draw (s : DrawnMesh) (context_view_distance : ℚ) : DrawnMesh :=
  let s2 :=
    if s.view_distance = context_view_distance then s
    else
      let s1 := { s with view_distance := context_view_distance }
      { s1.clear_cache with scaler := update_scaler context_view_distance }
  s2.get_passive_batch.2

/-- DrawnMesh.ray_from_mouse (src/viewport_drawing/drawing.py lines 111 to
131).  The screen-space unprojection and the BVH query are performed by the
host and the spatial index; their combined outcome for the cursor position in
question enters as the RaycastResult argument, and bm is the transformed mesh
the face_map lookup consults.  On a failed raycast the empty MouseHoverResult
is returned; otherwise each requested field is filled and every field whose
flag is False stays None. -/
def ray_from_mouse (bm : BMesh) (ray_result : RaycastResult)
    (face_id : Bool) (face_map : Bool) : MouseHoverResult :=
  if ray_result.failed then ⟨none, none, none, none⟩
  else
    { face_id := if face_id then ray_result.index else none
      face_map :=
        if face_map then
          match ray_result.index with
          | some i => face_map_lookup bm i
          | none => none
        else none
      vert_id := none
      edge_id := none }

/-- The event types the modal handler of VIEW3D_OT_test_geometry_drawing
distinguishes (src/viewport_drawing/debug_operators.py lines 50 to 63):
pointer move, confirm, the two cancel keys, and a representative of every
other event type the host may deliver. -/
inductive EventType where
  | MOUSEMOVE
  | LEFTMOUSE
  | RIGHTMOUSE
  | ESC
  | OTHER
deriving DecidableEq

/-- The operator return statuses the handler produces: RUNNING_MODAL is keep
running, FINISHED and CANCELLED end the session, PASS_THROUGH hands the event
back to the host. -/
inductive ModalStatus where
  | RUNNING_MODAL
  | FINISHED
  | CANCELLED
  | PASS_THROUGH
deriving DecidableEq

/-- The session state of VIEW3D_OT_test_geometry_drawing: the owned DrawnMesh,
whether the viewport draw handler is currently installed, the last stored
mouse position and the currently active face map list.  The face map element
type is Option Int because the stored value is the face_map field of a
MouseHoverResult. -/
structure OperatorState where
  workplanes_mesh : DrawnMesh
  draw_handle : Bool
  mouse_xy : Option (ℚ × ℚ)
  active_face_maps : Option (List (Option Int))
deriving DecidableEq

/-- VIEW3D_OT_test_geometry_drawing._rollover_detect (src/viewport_drawing/
debug_operators.py lines 41 to 48): run ray_from_mouse with face_map=True
(face_id defaulting to True); on success store the singleton list of the hover
face map, else store None.  The ray_from_mouse call walks self._bvh and then
self._xformed_bm, materializing both caches; the geometric outcome of the BVH
query for the current cursor enters as the RaycastResult argument. -/
def rollover_detect (s : OperatorState) (rc : RaycastResult) : OperatorState :=
  let ms := s.workplanes_mesh.get_bvh.2
  let p := ms.get_xformed_bm
  let hover := ray_from_mouse p.1 rc true true
  if hover.failed then
    { s with workplanes_mesh := p.2, active_face_maps := none }
  else
    { s with workplanes_mesh := p.2, active_face_maps := some [hover.face_map] }

/-- VIEW3D_OT_test_geometry_drawing.modal (src/viewport_drawing/
debug_operators.py lines 50 to 63).  MOUSEMOVE stores the mouse position and
runs rollover detection, then falls through to RUNNING_MODAL; LEFTMOUSE with a
non-None active face map removes the draw handler and returns the result of
execute, which is FINISHED; RIGHTMOUSE and ESC remove the draw handler and
return CANCELLED; every other event (and LEFTMOUSE without an active face map)
returns PASS_THROUGH untouched.  context.area.tag_redraw only schedules a host
redraw and has no state here. -/
def modal (s : OperatorState) (e : EventType) (rc : RaycastResult)
    (xy : ℚ × ℚ) : OperatorState × ModalStatus :=
  match e with
  | .MOUSEMOVE =>
    (rollover_detect { s with mouse_xy := some xy } rc, .RUNNING_MODAL)
  | .LEFTMOUSE =>
    if s.active_face_maps.isSome then
      ({ s with draw_handle := false }, .FINISHED)
    else (s, .PASS_THROUGH)
  | .RIGHTMOUSE => ({ s with draw_handle := false }, .CANCELLED)
  | .ESC => ({ s with draw_handle := false }, .CANCELLED)
  | .OTHER => (s, .PASS_THROUGH)

/-- A concrete source mesh: one triangle tagged with face map 0. -/
def triMesh : BMesh :=
  { verts := [⟨1, 0, 0⟩, ⟨0, 1, 0⟩, ⟨0, 0, 1⟩]
    faces := [⟨[0, 1, 2], 0⟩] }

/-- A concrete source mesh with a single vertex and no faces, enough to watch
the vertex transform. -/
def pointMesh : BMesh :=
  { verts := [⟨1, 0, 0⟩], faces := [] }

/-- A concrete three-group mesh in the shape of the workplanes asset: one
triangle per face map id 0, 1, 2. -/
def workplanesMesh : BMesh :=
  { verts := [⟨1, 0, 0⟩, ⟨0, 1, 0⟩, ⟨0, 0, 1⟩, ⟨2, 0, 0⟩, ⟨0, 2, 0⟩, ⟨0, 0, 2⟩]
    faces := [⟨[0, 1, 2], 0⟩, ⟨[3, 4, 5], 1⟩, ⟨[0, 3, 4], 2⟩] }

/-- A raycast miss: all components None. -/
def rcMiss : RaycastResult := ⟨none, none, none, none⟩

/-- A raycast hit on face 0. -/
def rcHit : RaycastResult := ⟨some ⟨0, 0, 0⟩, some ⟨0, 0, 1⟩, some 0, some 1⟩

/-- The DrawnMesh state right after a mouse move has run a hit test but no
draw call has happened yet: the bvh and transformed mesh caches are populated,
the passive batch cache is not. -/
def preDrawState : DrawnMesh := (DrawnMesh.init triMesh true).get_bvh.2

/-- A concrete operator session state whose mesh holds all three caches. -/
def opStateFull : OperatorState :=
  { workplanes_mesh := (preDrawState.get_passive_batch).2
    draw_handle := true
    mouse_xy := none
    active_face_maps := none }

/-- The same concrete session state after a hover stored an active face map. -/
def opStateActive : OperatorState :=
  { opStateFull with active_face_maps := some [some 0] }

/-- Accessing the cached transformed mesh never changes the scaler. -/
theorem get_xformed_bm_scaler (s : DrawnMesh) :
    s.get_xformed_bm.2.scaler = s.scaler := by
  cases h : s.cached_xformed_bm <;> simp [DrawnMesh.get_xformed_bm, h]

/-- Accessing the cached base batch never changes the scaler. -/
theorem get_passive_batch_scaler (s : DrawnMesh) :
    s.get_passive_batch.2.scaler = s.scaler := by
  cases h : s.cached_passive_batch <;>
    simp [DrawnMesh.get_passive_batch, h, get_xformed_bm_scaler]

/-- On a frame whose view distance differs from the stored one, draw stores
the new view distance, clears the cache, recomputes the scaler and then
materializes the base batch. -/
theorem DrawnMesh.draw_of_ne (s : DrawnMesh) (vd : ℚ)
    (h : ¬s.view_distance = vd) :
    s.draw vd =
      ({ ({ s with view_distance := vd } : DrawnMesh).clear_cache with
          scaler := update_scaler vd }).get_passive_batch.2 := by
  simp [DrawnMesh.draw, h]

/-- Claim C5: for every cursor position whose unprojected ray does not
intersect the mesh (in particular every ray missing the bounding volume, for
which BVHTree.ray_cast reports the all-None tuple), ray_from_mouse returns the
explicit empty MouseHoverResult, whose failed property is true, as a normal
return value. -/
theorem claim_C5_miss_yields_empty_hover (bm : BMesh) (rc : RaycastResult)
    (fid fm : Bool) (h : rc.failed = true) :
    ray_from_mouse bm rc fid fm = ⟨none, none, none, none⟩ ∧
      (ray_from_mouse bm rc fid fm).failed = true := by
  simp [ray_from_mouse, MouseHoverResult.failed, h]

/-- Witness for claim C5 at the concrete all-None raycast miss. -/
theorem claim_C5_witness :
    RaycastResult.failed rcMiss = true ∧
      (ray_from_mouse triMesh rcMiss true true = ⟨none, none, none, none⟩ ∧
        (ray_from_mouse triMesh rcMiss true true).failed = true) :=
  ⟨rfl, claim_C5_miss_yields_empty_hover triMesh rcMiss true true rfl⟩

/-- Claim C10: when both the face_id and face_map flags are False, the
MouseHoverResult has every field None and reports failed even though the
underlying raycast hit; failed is defined over the result fields, not over the
raycast outcome. -/
theorem claim_C10_flags_off_reports_failed (bm : BMesh) (rc : RaycastResult)
    (h : rc.failed = false) :
    ray_from_mouse bm rc false false = ⟨none, none, none, none⟩ ∧
      (ray_from_mouse bm rc false false).failed = true := by
  simp [ray_from_mouse, MouseHoverResult.failed, h]

/-- Witness for claim C10 at a concrete raycast hit on face 0. -/
theorem claim_C10_witness :
    RaycastResult.failed rcHit = false ∧
      (ray_from_mouse triMesh rcHit false false = ⟨none, none, none, none⟩ ∧
        (ray_from_mouse triMesh rcHit false false).failed = true) :=
  ⟨rfl, claim_C10_flags_off_reports_failed triMesh rcHit rfl⟩

/-- Claim C7, counterexample: the value returned by faces_by_map_id is a
generator; its first full traversal yields the single face of group 0 of the
concrete workplanes mesh, and traversing that same returned value a second
time yields nothing, so it does not yield the same set of faces each time it
is iterated. -/
theorem claim_C7_counterexample :
    (faces_by_map_id workplanesMesh 0).iterate.1 = [⟨[0, 1, 2], 0⟩] ∧
      (faces_by_map_id workplanesMesh 0).iterate.2.iterate.1 = [] := by
  exact ⟨rfl, rfl⟩

/-- Claim C7 as amended: each call of faces_by_map_id returns a fresh finite
generator whose first traversal yields exactly the faces whose face_map tag
equals the requested group id (so repeated calls yield the same list), but the
returned generator itself is a one-shot cursor: after one full traversal it is
exhausted and yields nothing. -/
theorem claim_C7_amended (bm : BMesh) (g : Int) :
    (faces_by_map_id bm g).iterate.1 = bm.faces.filter (fun f => f.fmap == g) ∧
      (faces_by_map_id bm g).iterate.2.iterate.1 = [] :=
  ⟨rfl, rfl⟩

/-- Claim C8, counterexample: an event outside the pointer-move, confirm,
cancel alphabet makes the modal handler return PASS_THROUGH, which is none of
keep-running, finished, cancelled. -/
theorem claim_C8_counterexample :
    (modal opStateFull .OTHER rcMiss (0, 0)).2 = .PASS_THROUGH ∧
      ModalStatus.PASS_THROUGH ≠ .RUNNING_MODAL ∧
      ModalStatus.PASS_THROUGH ≠ .FINISHED ∧
      ModalStatus.PASS_THROUGH ≠ .CANCELLED :=
  ⟨rfl, by decide, by decide, by decide⟩

/-- Claim C8 as amended: for every delivered event the modal handler returns
one of exactly four statuses: pointer moves keep the tool running, the cancel
keys return cancelled, a confirm click removes the draw handler and returns
finished exactly when a face map is active and passes the event through
untouched exactly when none is, and every other event is passed through to
the host. -/
theorem claim_C8_amended (s : OperatorState) (rc : RaycastResult)
    (xy : ℚ × ℚ) :
    (modal s .MOUSEMOVE rc xy).2 = .RUNNING_MODAL ∧
      (s.active_face_maps.isSome = true →
        modal s .LEFTMOUSE rc xy =
          ({ s with draw_handle := false }, .FINISHED)) ∧
      (s.active_face_maps = none →
        modal s .LEFTMOUSE rc xy = (s, .PASS_THROUGH)) ∧
      (modal s .RIGHTMOUSE rc xy).2 = .CANCELLED ∧
      (modal s .ESC rc xy).2 = .CANCELLED ∧
      (modal s .OTHER rc xy).2 = .PASS_THROUGH := by
  refine ⟨rfl, ?_, ?_, rfl, rfl, rfl⟩
  · intro h
    simp [modal, h]
  · intro h
    simp [modal, h]

/-- Witness for claim C8 as amended: a confirm click on a session with an
active face map finishes, and on the same session without one it is passed
through. -/
theorem claim_C8_amended_witness :
    (opStateActive.active_face_maps.isSome = true ∧
        modal opStateActive .LEFTMOUSE rcMiss (0, 0) =
          ({ opStateActive with draw_handle := false }, .FINISHED)) ∧
      (opStateFull.active_face_maps = none ∧
        modal opStateFull .LEFTMOUSE rcMiss (0, 0) =
          (opStateFull, .PASS_THROUGH)) :=
  ⟨⟨rfl, (claim_C8_amended opStateActive rcMiss (0, 0)).2.1 rfl⟩,
    ⟨rfl, (claim_C8_amended opStateFull rcMiss (0, 0)).2.2.1 rfl⟩⟩

/-- Claim C6, counterexample: a cancel event delivered to a session whose mesh
holds a live spatial index, transformed mesh copy and base GPU batch returns
CANCELLED while leaving all three resources owned and unreleased; only the
draw handler is removed. -/
theorem claim_C6_counterexample :
    (modal opStateFull .ESC rcMiss (0, 0)).2 = .CANCELLED ∧
      (modal opStateFull .ESC rcMiss (0, 0)).1.workplanes_mesh.cached_bvh.isSome
        = true ∧
      (modal opStateFull .ESC rcMiss (0, 0)).1.workplanes_mesh.cached_xformed_bm.isSome
        = true ∧
      (modal opStateFull .ESC rcMiss (0, 0)).1.workplanes_mesh.cached_passive_batch.isSome
        = true ∧
      (modal opStateFull .ESC rcMiss (0, 0)).1.draw_handle = false :=
  ⟨rfl, rfl, rfl, rfl, rfl⟩

/-- Claim C6 as amended: on a cancel event the modal handler removes the
viewport draw handler and returns CANCELLED, and does nothing else: the
spatial index, the transformed mesh copy and the GPU batch caches of the
session are left exactly as they were, their release being deferred to the
host reclaiming the operator object. -/
theorem claim_C6_amended (s : OperatorState) (e : EventType)
    (rc : RaycastResult) (xy : ℚ × ℚ) (h : e = .RIGHTMOUSE ∨ e = .ESC) :
    modal s e rc xy = ({ s with draw_handle := false }, .CANCELLED) := by
  rcases h with h | h <;> subst h <;> rfl

/-- Witness for claim C6 as amended, at a concrete session state and the ESC
cancel event. -/
theorem claim_C6_amended_witness :
    (EventType.ESC = EventType.RIGHTMOUSE ∨ EventType.ESC = EventType.ESC) ∧
      modal opStateFull .ESC rcMiss (0, 0) =
        ({ opStateFull with draw_handle := false }, .CANCELLED) :=
  ⟨Or.inr rfl, claim_C6_amended opStateFull .ESC rcMiss (0, 0) (Or.inr rfl)⟩

/-- Claim C9: the scaler computed by a draw call that sees a changed view
distance is an exact piecewise function of the view distance: the constant 3
on [0, 6) and exactly half the view distance from 6 on. -/
theorem claim_C9_scale_clamp (s : DrawnMesh) (vd : ℚ)
    (h : s.view_distance ≠ vd) :
    (0 ≤ vd → vd < 6 → (s.draw vd).scaler = 3) ∧
      (6 ≤ vd → (s.draw vd).scaler = vd / 2) := by
  have hs : (s.draw vd).scaler = update_scaler vd := by
    simp [DrawnMesh.draw, h, get_passive_batch_scaler]
  constructor
  · intro _ hlt
    rw [hs, update_scaler]
    exact max_eq_left (by linarith)
  · intro hge
    rw [hs, update_scaler]
    exact max_eq_right (by linarith)

/-- Witness for claim C9 at view distances 4 (clamped branch) and 12 (linear
branch) from a freshly constructed DrawnMesh. -/
theorem claim_C9_witness :
    ((DrawnMesh.init pointMesh false).view_distance ≠ 4 ∧ 0 ≤ (4 : ℚ) ∧
        (4 : ℚ) < 6 ∧ ((DrawnMesh.init pointMesh false).draw 4).scaler = 3) ∧
      ((DrawnMesh.init pointMesh false).view_distance ≠ 12 ∧ 6 ≤ (12 : ℚ) ∧
        ((DrawnMesh.init pointMesh false).draw 12).scaler = 12 / 2) :=
  ⟨⟨by norm_num [DrawnMesh.init], by norm_num, by norm_num,
      (claim_C9_scale_clamp (DrawnMesh.init pointMesh false) 4
        (by norm_num [DrawnMesh.init])).1 (by norm_num) (by norm_num)⟩,
    ⟨by norm_num [DrawnMesh.init], by norm_num,
      (claim_C9_scale_clamp (DrawnMesh.init pointMesh false) 12
        (by norm_num [DrawnMesh.init])).2 (by norm_num)⟩⟩

/-- Claim C2, counterexample: after a draw at view distance 12, the claimed
factor max(3, 12 / 2) is 6, so the single source vertex (1, 0, 0) would have
to map to (6, 0, 0); the transformed mesh the code caches instead holds
(3, 0, 0), because the cached property scales by scaler / 2. -/
theorem claim_C2_counterexample :
    max (3 : ℚ) (12 / 2) = 6 ∧
      ((DrawnMesh.draw (DrawnMesh.init pointMesh false) 12).cached_xformed_bm).map
          BMesh.verts = some [⟨3, 0, 0⟩] ∧
      ((DrawnMesh.draw (DrawnMesh.init pointMesh false) 12).cached_xformed_bm).map
          BMesh.verts ≠ some [⟨6, 0, 0⟩] := by
  have hne : ¬(DrawnMesh.init pointMesh false).view_distance = 12 := by
    show ¬(0 : ℚ) = 12
    norm_num
  refine ⟨by norm_num, ?_, ?_⟩ <;>
    rw [DrawnMesh.draw_of_ne _ _ hne] <;>
    simp [DrawnMesh.init, DrawnMesh.clear_cache, DrawnMesh.get_passive_batch,
      DrawnMesh.get_xformed_bm, xformed_bm_value, update_scaler, post_init,
      triangulate, pointMesh, Vec3.mk.injEq] <;>
    norm_num

/-- Claim C2 as amended: for every vertex of the transformed mesh, its
position equals the corresponding source-mesh vertex position multiplied by
max(minimumScale, viewDistance / 2) / 2, with minimumScale = 3; that is, the
uniform factor is half the computed scale clamp, because the transformed copy
is scaled by scaler / 2. -/
theorem claim_C2_amended (bm : BMesh) (ds : Bool) (vd : ℚ) (h : vd ≠ 0) :
    (DrawnMesh.draw (DrawnMesh.init bm ds) vd).cached_xformed_bm =
      some { post_init bm ds with
        verts := (post_init bm ds).verts.map
          (fun v => ⟨v.x * (max 3 (vd / 2) / 2), v.y * (max 3 (vd / 2) / 2),
            v.z * (max 3 (vd / 2) / 2)⟩) } := by
  have hne : ¬(DrawnMesh.init bm ds).view_distance = vd :=
    fun hh => h hh.symm
  rw [DrawnMesh.draw_of_ne _ _ hne]
  simp [DrawnMesh.init, DrawnMesh.clear_cache, DrawnMesh.get_passive_batch,
    DrawnMesh.get_xformed_bm, xformed_bm_value, update_scaler]

/-- Witness for claim C2 as amended at the one-vertex mesh and view distance
12. -/
theorem claim_C2_amended_witness :
    (12 : ℚ) ≠ 0 ∧
      (DrawnMesh.draw (DrawnMesh.init pointMesh false) 12).cached_xformed_bm =
        some { post_init pointMesh false with
          verts := (post_init pointMesh false).verts.map
            (fun v => ⟨v.x * (max 3 (12 / 2) / 2), v.y * (max 3 (12 / 2) / 2),
              v.z * (max 3 (12 / 2) / 2)⟩) } :=
  ⟨by norm_num, claim_C2_amended pointMesh false 12 (by norm_num)⟩

/-- Claim C1, evaluation of the code at the failing input: starting from the
state reached when a mouse-move hit test has populated the transformed mesh
and the spatial index but no draw call has built the base batch yet, a draw
call that sees the view distance change to 12 recomputes the transformed mesh
and the base batch with the new scaler, yet still holds the spatial index
built from the old, scaler 1 transformed mesh, which differs from the mesh the
base batch now renders: only a strict subset of the three cached values was
cleared. -/
theorem claim_C1_bug_eval :
    (preDrawState.draw 12).cached_xformed_bm =
        some (xformed_bm_value (post_init triMesh true) (update_scaler 12)) ∧
      (preDrawState.draw 12).cached_bvh =
        some (BVH.mk (xformed_bm_value (post_init triMesh true) 1)) ∧
      (preDrawState.draw 12).cached_passive_batch =
        some (Batch.mk
          (points_and_faces
            (xformed_bm_value (post_init triMesh true) (update_scaler 12))).1
          (points_and_faces
            (xformed_bm_value (post_init triMesh true) (update_scaler 12))).2) ∧
      xformed_bm_value (post_init triMesh true) 1 ≠
        xformed_bm_value (post_init triMesh true) (update_scaler 12) := by
  have hne : ¬preDrawState.view_distance = 12 := by
    show ¬(0 : ℚ) = 12
    norm_num
  refine ⟨?_, ?_, ?_, ?_⟩
  · rw [DrawnMesh.draw_of_ne _ _ hne]; rfl
  · rw [DrawnMesh.draw_of_ne _ _ hne]; rfl
  · rw [DrawnMesh.draw_of_ne _ _ hne]; rfl
  · simp [xformed_bm_value, post_init, triangulate, duplicate_and_reverse,
      triMesh, update_scaler, fan_tris, triangulate_face, BMesh.mk.injEq,
      Vec3.mk.injEq]
    norm_num

/-- Every face a fan decomposition produces is a triangle. -/
theorem fan_tris_verts_length (v0 : Nat) (fm : Int) :
    ∀ l : List Nat, ∀ f ∈ fan_tris v0 fm l, f.verts.length = 3 := by
  intro l
  induction l with
  | nil => intro f hf; exact absurd hf (List.not_mem_nil f)
  | cons v1 rest ih =>
    cases rest with
    | nil => intro f hf; exact absurd hf (List.not_mem_nil f)
    | cons v2 rest2 =>
      intro f hf
      simp only [fan_tris, List.mem_cons] at hf
      rcases hf with hf | hf
      · subst hf; rfl
      · exact ih f hf

/-- Every face the triangulation of one face produces is a triangle. -/
theorem triangulate_face_verts_length (f : BMFace) :
    ∀ g ∈ triangulate_face f, g.verts.length = 3 := by
  intro g hg
  unfold triangulate_face at hg
  cases h : f.verts with
  | nil => rw [h] at hg; exact absurd hg (List.not_mem_nil g)
  | cons v0 rest => rw [h] at hg; exact fan_tris_verts_length v0 f.fmap rest g hg

/-- Every face of a triangulated mesh is a triangle. -/
theorem triangulate_faces_are_tris (bm : BMesh) :
    ∀ f ∈ (triangulate bm).faces, f.verts.length = 3 := by
  intro f hf
  simp only [triangulate, List.mem_flatMap] at hf
  obtain ⟨g, _, hfg⟩ := hf
  exact triangulate_face_verts_length g f hfg

/-- Claim C3: preprocessing triangulates so that every face of the output
mesh has exactly 3 vertices, and the double sided pass exactly doubles the
triangulated face count while the single sided pass leaves it unchanged. -/
theorem claim_C3_triangulation_and_doubling (bm : BMesh) (ds : Bool) :
    (∀ f ∈ (post_init bm ds).faces, f.verts.length = 3) ∧
      (post_init bm true).faces.length = 2 * (triangulate bm).faces.length ∧
      (post_init bm false).faces.length = (triangulate bm).faces.length := by
  refine ⟨?_, ?_, ?_⟩
  · cases ds with
    | false => simpa [post_init] using triangulate_faces_are_tris bm
    | true =>
      intro f hf
      simp only [post_init, if_pos, List.mem_append, duplicate_and_reverse,
        List.mem_map] at hf
      rcases hf with hf | ⟨g, hg, rfl⟩
      · exact triangulate_faces_are_tris bm f hf
      · simpa using triangulate_faces_are_tris bm g hg
  · simp only [post_init, if_pos, duplicate_and_reverse, List.length_append,
      List.length_map]
    omega
  · simp [post_init]

/-- Witness for claim C3: the front copy of the single triangle of the
concrete mesh sits in the preprocessed double sided mesh and has 3 vertices. -/
theorem claim_C3_witness :
    (⟨[0, 1, 2], 0⟩ : BMFace) ∈ (post_init triMesh true).faces ∧
      (BMFace.verts ⟨[0, 1, 2], 0⟩).length = 3 :=
  ⟨by decide,
    (claim_C3_triangulation_and_doubling triMesh true).1 ⟨[0, 1, 2], 0⟩
      (by decide)⟩

/-- Splitting a face list by each of its tags, over a duplicate-free list of
tags covering every face, yields every face exactly once. -/
theorem filter_by_tag_perm :
    ∀ (gs : List Int) (l : List BMFace), gs.Nodup →
      (∀ f ∈ l, f.fmap ∈ gs) →
      List.Perm
        ((gs.map (fun g => l.filter (fun f => f.fmap == g))).flatten) l := by
  intro gs
  induction gs with
  | nil =>
    intro l _ hcov
    cases l with
    | nil => simp
    | cons f fs => exact absurd (hcov f (by simp)) (by simp)
  | cons g gs ih =>
    intro l hnd hcov
    simp only [List.map_cons, List.flatten_cons]
    have hgnotin : g ∉ gs := (List.nodup_cons.mp hnd).1
    have hrest : gs.map (fun g2 => l.filter (fun f => f.fmap == g2)) =
        gs.map (fun g2 => (l.filter (fun f => !(f.fmap == g))).filter
          (fun f => f.fmap == g2)) := by
      apply List.map_congr_left
      intro g2 hg2
      rw [List.filter_filter]
      apply List.filter_congr
      intro f _
      cases hfg : f.fmap == g2 with
      | false => simp
      | true =>
        have hfe : f.fmap = g2 := beq_iff_eq.mp hfg
        have hne : ¬f.fmap = g := fun hh => hgnotin (hh ▸ hfe ▸ hg2)
        simp [hne]
    have hcov2 : ∀ f ∈ l.filter (fun f => !(f.fmap == g)), f.fmap ∈ gs := by
      intro f hf
      rw [List.mem_filter] at hf
      have hmem := hcov f hf.1
      have hne : ¬f.fmap = g := by
        have := hf.2
        simp only [Bool.not_eq_true'] at this
        exact fun hh => by simp [hh] at this
      rcases List.mem_cons.mp hmem with hh | hh
      · exact absurd hh hne
      · exact hh
    have hperm := ih (l.filter (fun f => !(f.fmap == g)))
      (List.nodup_cons.mp hnd).2 hcov2
    rw [hrest]
    exact List.Perm.trans (List.Perm.append_left _ hperm)
      (List.filter_append_perm _ l)

/-- Claim C4: group membership partitions the face set: every face yielded
for a group carries that group tag; flattening the groups over all known tags
yields every face of the mesh exactly once; and in the double sided
preprocessed mesh the duplicated back face at offset i carries the same tag as
the front face at index i it was copied from. -/
theorem claim_C4_partition (bm : BMesh) :
    (∀ g : Int, ∀ f ∈ faces_by_map_id_list bm g, f.fmap = g) ∧
      List.Perm
        (((known_face_map_ids bm).map
          (fun g => faces_by_map_id_list bm g)).flatten) bm.faces ∧
      (∀ i, i < (triangulate bm).faces.length →
        ((post_init bm true).faces[(triangulate bm).faces.length + i]?).map
            BMFace.fmap =
          ((post_init bm true).faces[i]?).map BMFace.fmap) := by
  refine ⟨?_, ?_, ?_⟩
  · intro g f hf
    simp only [faces_by_map_id_list, faces_by_map_id, FaceGen.iterate] at hf
    exact beq_iff_eq.mp (List.mem_filter.mp hf).2
  · simp only [faces_by_map_id_list, faces_by_map_id, FaceGen.iterate,
      known_face_map_ids]
    exact filter_by_tag_perm ((bm.faces.map BMFace.fmap).dedup) bm.faces
      (List.nodup_dedup _)
      (fun f hf => List.mem_dedup.mpr (List.mem_map_of_mem BMFace.fmap hf))
  · intro i hi
    simp only [post_init, if_pos, duplicate_and_reverse]
    rw [List.getElem?_append_right (by omega), List.getElem?_append_left hi,
      Nat.add_sub_cancel_left, List.getElem?_map, Option.map_map]
    rfl

/-- Witness for claim C4 at the concrete three-group mesh and at the concrete
triangle mesh: the single group 0 face carries tag 0, and the back face copied
from front face 0 of the double sided mesh carries the same tag. -/
theorem claim_C4_witness :
    ((⟨[0, 1, 2], 0⟩ : BMFace) ∈ faces_by_map_id_list workplanesMesh 0 ∧
        BMFace.fmap ⟨[0, 1, 2], 0⟩ = 0) ∧
      (0 < (triangulate triMesh).faces.length ∧
        ((post_init triMesh true).faces[(triangulate triMesh).faces.length + 0]?).map
            BMFace.fmap =
          ((post_init triMesh true).faces[0]?).map BMFace.fmap) :=
  ⟨⟨by decide, (claim_C4_partition workplanesMesh).1 0 ⟨[0, 1, 2], 0⟩
      (by decide)⟩,
    ⟨by decide, (claim_C4_partition triMesh).2.2 0 (by decide)⟩⟩
